import Mathlib

/-!
Verification of the insurance-RAG retrieval core.

This file is a shallow embedding, in Lean 4, of the retrieval-decision
engine, input gate, cache invalidation, context assembler and schema
validator of the repository, together with theorems settling the frozen
claims about them.

Modelling conventions.
  Strings are Lean strings processed as lists of Unicode scalar values.
  All source strings exercised by the theorems lie in the Basic
  Multilingual Plane, where JavaScript UTF-16 code units coincide with
  scalar values.  The JavaScript builtins toLowerCase and
  normalize NFKC are embedded as per-character tables that are
  exact on ASCII, on CJK unified ideographs, on the punctuation the
  normalizer strips, and on the extra characters listed in the tables;
  every other character is treated as fixed by both.  Similarity scores
  are modelled as rationals.  Blocking RPCs are modelled as oracle
  inputs plus explicit failure flags, and each request-handling
  function additionally returns the ordered list of RPC events it
  issued.
-/

namespace InsuranceRag

/-! ## Character model: JavaScript toLowerCase and NFKC -/

/-- Embedding of JavaScript toLowerCase, restricted to simple case
mapping on ASCII; all characters relevant to this development outside
ASCII are fixed points of toLowerCase. -/
def jsLower (c : Char) : Char :=
  if 'A' ≤ c ∧ c ≤ 'Z' then Char.ofNat (c.toNat + 32) else c

/-- Embedding of Unicode NFKC as a per-character expansion table.
Entries: U+FF01 fullwidth exclamation mark has compatibility
decomposition to ASCII 0x21, and U+2103 degree Celsius decomposes to
U+00B0 followed by latin capital C.  Characters outside the table are
modelled as NFKC-inert, which is exact for ASCII, for CJK unified
ideographs and for every character used in the concrete theorems. -/
def nfkcChar (c : Char) : List Char :=
  if c = '！' then ['!']
  else if c = '℃' then ['°', 'C']
  else [c]

/-- The JavaScript regex class backslash-s together with U+3000: the
characters removed by the first replace of the normalizer. -/
def isJsSpace (c : Char) : Bool :=
  c.toNat == 0x20 || (0x9 ≤ c.toNat && c.toNat ≤ 0xD) || c.toNat == 0xA0 ||
  c.toNat == 0x1680 || (0x2000 ≤ c.toNat && c.toNat ≤ 0x200A) ||
  c.toNat == 0x2028 || c.toNat == 0x2029 || c.toNat == 0x202F ||
  c.toNat == 0x205F || c.toNat == 0x3000 || c.toNat == 0xFEFF

/-- The exact character class of the second replace of
normalizeProductName in src/lib/retrieval.ts, read off the source
code points. -/
def stripPunctChars : List Char :=
  ['(', ')', '（', '）', '［', '］', '【', '】', '[', ']',
   '·', '•', '．', '・', '。', '、', '，', ',', '.', '_', '/', ':',
   Char.ofNat 0x27, Char.ofNat 0x22, '-']

def isStripPunct (c : Char) : Bool := stripPunctChars.contains c

/-! ## Normalizer (src/lib/retrieval.ts, normalizeProductName) -/

/-- Product-name normalizer: lower-case, NFKC, strip whitespace, strip
the fixed punctuation set.  The two regex replaces are per-character
classes, so they are embedded as filters over the NFKC output. -/
def normalizeProductName (name : String) : String :=
  String.mk
    ((((name.data.map jsLower).flatMap nfkcChar).filter
        (fun c => !(isJsSpace c))).filter
      (fun c => !(isStripPunct c)))

/-- Cache key generation (src/lib/retrieval.ts, getCacheKey). -/
def getCacheKey (productName : String) : String :=
  normalizeProductName productName

/-- A character is stable when one pass of the lower-case plus NFKC
pipeline sends it to characters that are themselves fixed by both. -/
def stableChar (c : Char) : Bool :=
  (nfkcChar (jsLower c)).all (fun d => jsLower d == d && nfkcChar d == [d])

/-! ## Substring containment (JavaScript includes, Postgres ilike) -/

/-- Contiguous-sublist test on character lists. -/
def isInfixB (small : List Char) : List Char → Bool
  | [] => small.isEmpty
  | c :: t => small.isPrefixOf (c :: t) || isInfixB small t

/-- JavaScript big.includes(small). -/
def strIncludes (big small : String) : Bool :=
  isInfixB small.data big.data

def jsLowerStr (s : String) : String := String.mk (s.data.map jsLower)

/-- Postgres ilike with a pattern of the form percent-text-percent and
no wildcard metacharacters in the text: case-insensitive substring
containment.  Postgres lower and JavaScript toLowerCase agree on the
character domain of this development. -/
def ilikeContains (text pattern : String) : Bool :=
  isInfixB (jsLowerStr pattern).data (jsLowerStr text).data

/-! ## Data model: database rows and retrieval types -/

/-- A row of the products table. -/
structure ProductRow where
  id : Nat
  name : String
  is_active : Bool
deriving DecidableEq, Repr

/-- Projection of a product row as returned by select id, name. -/
structure ProductInfo where
  id : Nat
  name : String
deriving DecidableEq, Repr

/-- A clause row as returned by the vector store RPC; similarity is
absent on rows fetched directly from the clauses table. -/
structure ClauseRow where
  id : Nat
  product_id : Option Nat
  content : Option String
  similarity : Option Rat
deriving DecidableEq, Repr

/-- A row of the clauses table. -/
structure ClauseTableRow where
  id : Nat
  product_id : Option Nat
  content : Option String
deriving DecidableEq, Repr

/-- The relational store visible to the retrieval core. -/
structure Db where
  products : List ProductRow
  clauses : List ClauseTableRow
deriving Repr

inductive RetrievalStrategy where
  | PRODUCT_NAME_MATCH
  | PRODUCT_NAME_RERANK
  | VECTOR_ONLY
  | FALLBACK_ILIKE
  | NO_RESULTS
  | FAILED
deriving DecidableEq, Repr

/-- Result record of hybridRetrieve, debug fields included. -/
structure RetrievalResult where
  rows : List ClauseRow
  priorityProductIds : List Nat
  matchedProductName : Option String
  strategy : RetrievalStrategy
  vectorMatches : Option (List ClauseRow)
  allProducts : Option (List ProductInfo)
deriving Repr

/-- Upstream RPC events, in issue order. -/
inductive Ev where
  | listActiveRpc
  | embedRpc
  | vectorRpc
  | cacheReadRpc
  | cacheUpdateRpc
  | prodIlikeRpc
  | clauseFetchRpc
  | productNamesRpc
  | generateRpc
  | cacheWriteRpc
deriving DecidableEq, Repr

/-- Oracle environment for one retrieval: the database, the vector
store answer as a function of the requested count, and one failure
flag per fallible upstream call. -/
structure RetrievalEnv where
  db : Db
  vecHits : Nat → List ClauseRow
  listActiveFails : Bool
  embedFails : Bool
  vectorFails : Bool
  prodLikeFails : Bool
  clauseFetchFails : Bool

/-! ## Retrieval policy engine (src/lib/retrieval.ts, hybridRetrieve) -/

/-- JavaScript truthiness of a nullable string. -/
def isTruthyOptStr (s : Option String) : Bool :=
  match s with
  | none => false
  | some t => !(t == "")

/-- Bidirectional containment test of the name-match tier. -/
def nameMatches (queryNorm : String) (name : String) : Bool :=
  let nameNorm := normalizeProductName name
  strIncludes nameNorm queryNorm || strIncludes queryNorm nameNorm

/-- The phase-1 loop: accumulate matching product ids in table order
and record the first matched name, where an empty string counts as
unset under JavaScript truthiness. -/
def priorityLoop (queryNorm : String) (ids : List Nat) (matched : Option String) :
    List ProductInfo → List Nat × Option String
  | [] => (ids, matched)
  | p :: rest =>
    if nameMatches queryNorm p.name then
      priorityLoop queryNorm (ids ++ [p.id])
        (if isTruthyOptStr matched then matched else some p.name) rest
    else
      priorityLoop queryNorm ids matched rest

/-- The filter predicate of the priority tier: product_id truthy (non
null and non zero) and contained in the priority id set. -/
def rowInPriority (ids : List Nat) (r : ClauseRow) : Bool :=
  match r.product_id with
  | some n => !(n == 0) && ids.contains n
  | none => false

def priorityFilter (ids : List Nat) (rows : List ClauseRow) : List ClauseRow :=
  rows.filter (fun r => rowInPriority ids r)

/-- similarity or zero, as in the comparator. -/
def simOf (r : ClauseRow) : Rat := r.similarity.getD 0

/-- Total preorder induced by the rerank comparator: name-matched rows
first, ties by descending similarity. -/
def rerankLe (ids : List Nat) (a b : ClauseRow) : Bool :=
  let aM := rowInPriority ids a
  let bM := rowInPriority ids b
  if aM && !bM then true
  else if !aM && bM then false
  else simOf b ≤ simOf a

/-- Stable sort of the rerank branch (ES2019 Array sort is stable). -/
def rerankSort (ids : List Nat) (rows : List ClauseRow) : List ClauseRow :=
  rows.mergeSort (rerankLe ids)

/-- Registry ilike fallback lookup, limit 3. -/
def likeProducts (db : Db) (query : String) : List ProductRow :=
  (db.products.filter (fun p => ilikeContains p.name query)).take 3

/-- Clause fetch of the ilike fallback, limit matchCount; null
product_id never satisfies an SQL in-list. -/
def fallbackClauseRows (db : Db) (likeIds : List Nat) (matchCount : Nat) : List ClauseRow :=
  ((db.clauses.filter (fun c =>
      match c.product_id with
      | some pid => likeIds.contains pid
      | none => false)).take matchCount).map
    (fun c => ⟨c.id, c.product_id, c.content, none⟩)

/-- Assemble a final (non short-circuited) retrieval result; the debug
fields carry the raw vector matches and the active-product list. -/
def finishResult (rows : List ClauseRow) (ids : List Nat) (nm : Option String)
    (strat : RetrievalStrategy) (debug : Bool) (vec : List ClauseRow)
    (prods : List ProductInfo) : RetrievalResult :=
  { rows := rows
    priorityProductIds := ids
    matchedProductName := nm
    strategy := strat
    vectorMatches := if debug then some vec else none
    allProducts := if debug then some prods else none }

/-- Phase 3: priority filter or rerank, then truncation to matchCount;
runs only when the priority set and the vector rows are both
non-empty, otherwise the rows pass through untruncated with the
VECTOR_ONLY tag. -/
def phase3 (ids : List Nat) (rows0 : List ClauseRow) (matchCount : Nat) :
    List ClauseRow × RetrievalStrategy :=
  if !ids.isEmpty && !rows0.isEmpty then
    let priorityRows := priorityFilter ids rows0
    if !priorityRows.isEmpty then
      (priorityRows.take matchCount, RetrievalStrategy.PRODUCT_NAME_MATCH)
    else
      ((rerankSort ids rows0).take matchCount, RetrievalStrategy.PRODUCT_NAME_RERANK)
  else
    (rows0, RetrievalStrategy.VECTOR_ONLY)

/-- The retrieval policy engine.  Mirrors hybridRetrieve: phase 1 name
match over active products (a registry failure yields a null data
object, handled as an empty list), phase 2 embedding plus vector match
at twice the requested count, phase 3 priority filter or rerank with
truncation, phase 4 ilike fallback.  Failure of the embedding throws
into the outer catch, which resets the priority ids; failures of the
vector match, the ilike lookup or the clause fetch return FAILED
directly.  The second component lists the RPCs issued, in order. -/
def hybridRetrieve (query : String) (env : RetrievalEnv) (matchCount : Nat)
    (debug : Bool) : RetrievalResult × List Ev :=
  let allProducts : List ProductInfo :=
    if env.listActiveFails then []
    else (env.db.products.filter (fun p => p.is_active)).map (fun p => ⟨p.id, p.name⟩)
  let queryNorm := normalizeProductName query
  let pr := priorityLoop queryNorm [] none allProducts
  if env.embedFails then
    (⟨[], [], none, RetrievalStrategy.FAILED, none, none⟩,
      [Ev.listActiveRpc, Ev.embedRpc])
  else if env.vectorFails then
    (⟨[], pr.1, pr.2, RetrievalStrategy.FAILED, none, none⟩,
      [Ev.listActiveRpc, Ev.embedRpc, Ev.vectorRpc])
  else
    let rows0 := env.vecHits (matchCount * 2)
    let fr := phase3 pr.1 rows0 matchCount
    if fr.1.isEmpty then
      if env.prodLikeFails then
        (⟨[], pr.1, pr.2, RetrievalStrategy.FAILED, none, none⟩,
          [Ev.listActiveRpc, Ev.embedRpc, Ev.vectorRpc, Ev.prodIlikeRpc])
      else
        let likeIds := (likeProducts env.db query).map (fun p => p.id)
        if likeIds.isEmpty then
          (finishResult [] pr.1 pr.2 RetrievalStrategy.NO_RESULTS debug rows0 allProducts,
            [Ev.listActiveRpc, Ev.embedRpc, Ev.vectorRpc, Ev.prodIlikeRpc])
        else if env.clauseFetchFails then
          (⟨[], pr.1, pr.2, RetrievalStrategy.FAILED, none, none⟩,
            [Ev.listActiveRpc, Ev.embedRpc, Ev.vectorRpc, Ev.prodIlikeRpc, Ev.clauseFetchRpc])
        else
          let crows := fallbackClauseRows env.db likeIds matchCount
          (finishResult crows pr.1 pr.2
            (if !crows.isEmpty then RetrievalStrategy.FALLBACK_ILIKE
             else RetrievalStrategy.NO_RESULTS) debug rows0 allProducts,
            [Ev.listActiveRpc, Ev.embedRpc, Ev.vectorRpc, Ev.prodIlikeRpc, Ev.clauseFetchRpc])
    else
      (finishResult fr.1 pr.1 pr.2 fr.2 debug rows0 allProducts,
        [Ev.listActiveRpc, Ev.embedRpc, Ev.vectorRpc])

/-! ## Input gate (search route, isGibberish) -/

def isAsciiDigitB (c : Char) : Bool := '0' ≤ c && c ≤ '9'

def isAsciiLetterB (c : Char) : Bool :=
  ('a' ≤ c && c ≤ 'z') || ('A' ≤ c && c ≤ 'Z')

/-- The ASCII punctuation ranges of the fourth gate regex. -/
def isAsciiPunctB (c : Char) : Bool :=
  (0x21 ≤ c.toNat && c.toNat ≤ 0x2F) || (0x3A ≤ c.toNat && c.toNat ≤ 0x40) ||
  (0x5B ≤ c.toNat && c.toNat ≤ 0x60) || (0x7B ≤ c.toNat && c.toNat ≤ 0x7E)

/-- JavaScript line terminators, which the dot of a regex never
matches. -/
def isLineTerm (c : Char) : Bool :=
  c == '\n' || c == '\r' || c.toNat == 0x2028 || c.toNat == 0x2029

/-- A regex of shape caret-class-plus-dollar: at least one character
and every character in the class. -/
def matchesAllOf (p : Char → Bool) (s : String) : Bool :=
  !s.data.isEmpty && s.data.all p

/-- The fifth gate regex: one captured character, not a line
terminator, repeated to a total length of at least four. -/
def isRepeatedChar (s : String) : Bool :=
  match s.data with
  | [] => false
  | c :: rest => !isLineTerm c && rest.all (fun d => d == c) && s.length ≥ 4

/-- The input gate.  Returns the rejection reason, or none when the
query passes.  The five checks run in source order. -/
def isGibberish (query : String) : Option String :=
  if query.length < 2 then
    some "查询内容太短，请输入完整的产品名称或问题"
  else if matchesAllOf isAsciiDigitB query then
    some "请输入产品名称而非纯数字"
  else if matchesAllOf isAsciiLetterB query && query.length < 3 then
    some "请输入完整的产品名称"
  else if matchesAllOf (fun c => isJsSpace c || isAsciiPunctB c) query then
    some "请输入有效的产品名称或问题"
  else if isRepeatedChar query then
    some "请输入有效的产品名称或问题"
  else
    none

/-- The rejection condition exactly as the claim words it: length
below two, or entirely digits, or entirely ASCII letters with length
below three, or entirely whitespace or ASCII punctuation, or one
single character repeated four or more times. -/
def gateRejectSpec (q : String) : Bool :=
  q.length < 2 || matchesAllOf isAsciiDigitB q ||
  (matchesAllOf isAsciiLetterB q && q.length < 3) ||
  matchesAllOf (fun c => isJsSpace c || isAsciiPunctB c) q ||
  (match q.data with
   | [] => false
   | c :: rest => rest.all (fun d => d == c) && q.length ≥ 4)

/-! ## JSON values and the zod schemas (src/lib/schemas.ts) -/

/-- Untyped JSON, numbers restricted to integers: the only numeric
fields the validator constrains are clause ids. -/
inductive JsonVal where
  | null
  | bool (b : Bool)
  | num (n : Int)
  | str (s : String)
  | arr (elems : List JsonVal)
  | obj (fields : List (String × JsonVal))
deriving Repr

/-- Property read on a JSON object. -/
def getField (j : JsonVal) (k : String) : Option JsonVal :=
  match j with
  | JsonVal.obj fs => (fs.find? (fun kv => kv.1 == k)).map (fun kv => kv.2)
  | _ => none

/-- Property assignment on a JSON object; non-objects are returned
unchanged (the route only assigns onto objects). -/
def objSet (j : JsonVal) (k : String) (v : JsonVal) : JsonVal :=
  match j with
  | JsonVal.obj fs => JsonVal.obj ((fs.filter (fun kv => !(kv.1 == k))) ++ [(k, v)])
  | other => other

def parseStr : JsonVal → Option String
  | JsonVal.str s => some s
  | _ => none

def parseBoolJ : JsonVal → Option Bool
  | JsonVal.bool b => some b
  | _ => none

/-- z.number().nullable(). -/
def parseNullableNum : JsonVal → Option (Option Int)
  | JsonVal.null => some none
  | JsonVal.num n => some (some n)
  | _ => none

/-- z.string().nullable(). -/
def parseNullableStr : JsonVal → Option (Option String)
  | JsonVal.null => some none
  | JsonVal.str s => some (some s)
  | _ => none

/-- Typed views of the validated card, one per zod sub-schema. -/
structure SourcedField where
  value : String
  sourceClauseId : Option Int
deriving DecidableEq, Repr

structure CoverageItem where
  title : String
  value : String
  desc : String
  sourceClauseId : Option Int
deriving DecidableEq, Repr

structure ExclusionItem where
  value : String
  sourceClauseId : Option Int
deriving DecidableEq, Repr

structure SourceInfoOut where
  clauseId : Int
  productName : Option String
deriving DecidableEq, Repr

structure ClauseMapItem where
  snippet : String
  productName : Option String
deriving DecidableEq, Repr

/-- The validated success response.  The optional trailing fields
model the zod optional fields, with underscore prefixes dropped from
the Lean names: cachedFlag is the JSON key _cached, and likewise for
the three debug fields. -/
structure SearchSuccessResponse where
  productName : SourcedField
  overview : SourcedField
  coreCoverage : List CoverageItem
  exclusions : List ExclusionItem
  targetAudience : SourcedField
  salesScript : List String
  rawTerms : String
  sources : List SourceInfoOut
  clauseMap : List (Int × ClauseMapItem)
  cachedFlag : Option Bool
  debugUsedFallback : Option Bool
  debugContext : Option String
  debugMatches : Option (List JsonVal)
deriving Repr

def parseSourcedField (j : JsonVal) : Option SourcedField := do
  let v ← getField j "value"
  let sc ← getField j "sourceClauseId"
  let value ← parseStr v
  let sourceClauseId ← parseNullableNum sc
  pure { value := value, sourceClauseId := sourceClauseId }

def parseCoverageItem (j : JsonVal) : Option CoverageItem := do
  let t ← getField j "title" >>= parseStr
  let v ← getField j "value" >>= parseStr
  let d ← getField j "desc" >>= parseStr
  let sc ← getField j "sourceClauseId" >>= parseNullableNum
  pure { title := t, value := v, desc := d, sourceClauseId := sc }

def parseExclusionItem (j : JsonVal) : Option ExclusionItem := do
  let v ← getField j "value" >>= parseStr
  let sc ← getField j "sourceClauseId" >>= parseNullableNum
  pure { value := v, sourceClauseId := sc }

def parseSourceInfo (j : JsonVal) : Option SourceInfoOut := do
  let c ← getField j "clauseId"
  let n ← match c with
          | JsonVal.num n => some n
          | _ => none
  let p ← getField j "productName" >>= parseNullableStr
  pure { clauseId := n, productName := p }

def parseClauseMapItem (j : JsonVal) : Option ClauseMapItem := do
  let s ← getField j "snippet" >>= parseStr
  let p ← getField j "productName" >>= parseNullableStr
  pure { snippet := s, productName := p }

def parseArrWith (p : JsonVal → Option α) : JsonVal → Option (List α)
  | JsonVal.arr xs => xs.mapM p
  | _ => none

/-- Decimal natural-number key, as produced by the route for the
clauseMap record; z.coerce.number() accepts exactly these on the key
strings this system generates. -/
def digitsToNat (s : String) : Option Nat :=
  if s.data.isEmpty then none
  else if s.data.all isAsciiDigitB then
    some (s.data.foldl (fun acc c => acc * 10 + (c.toNat - '0'.toNat)) 0)
  else none

def parseClauseMap (j : JsonVal) : Option (List (Int × ClauseMapItem)) :=
  match j with
  | JsonVal.obj fs =>
    fs.mapM (fun kv => do
      let n ← digitsToNat kv.1
      let item ← parseClauseMapItem kv.2
      pure ((n : Int), item))
  | _ => none

/-- An optional zod field: missing is fine, present must typecheck. -/
def parseOptionalWith (p : JsonVal → Option α) (j : JsonVal) (k : String) :
    Option (Option α) :=
  match getField j k with
  | none => some none
  | some v => (p v).map some

/-- safeParse of SearchSuccessResponseSchema: shape and field types
only.  Unknown keys are stripped; no cross-field condition relates
sourceClauseId values to clauseMap keys. -/
def parseSearchSuccess (j : JsonVal) : Option SearchSuccessResponse :=
  match j with
  | JsonVal.obj _ => do
    let productName ← getField j "productName" >>= parseSourcedField
    let overview ← getField j "overview" >>= parseSourcedField
    let coreCoverage ← getField j "coreCoverage" >>= parseArrWith parseCoverageItem
    let exclusions ← getField j "exclusions" >>= parseArrWith parseExclusionItem
    let targetAudience ← getField j "targetAudience" >>= parseSourcedField
    let salesScript ← getField j "salesScript" >>= parseArrWith parseStr
    let rawTerms ← getField j "rawTerms" >>= parseStr
    let sources ← getField j "sources" >>= parseArrWith parseSourceInfo
    let clauseMap ← getField j "clauseMap" >>= parseClauseMap
    let cachedFlag ← parseOptionalWith parseBoolJ j "_cached"
    let debugUsedFallback ← parseOptionalWith parseBoolJ j "_debugUsedFallback"
    let debugContext ← parseOptionalWith parseStr j "_debugContext"
    let debugMatches ← parseOptionalWith (parseArrWith pure) j "_debugMatches"
    pure { productName := productName, overview := overview,
           coreCoverage := coreCoverage, exclusions := exclusions,
           targetAudience := targetAudience, salesScript := salesScript,
           rawTerms := rawTerms, sources := sources, clauseMap := clauseMap,
           cachedFlag := cachedFlag, debugUsedFallback := debugUsedFallback,
           debugContext := debugContext, debugMatches := debugMatches }
  | _ => none

/-! ## Citation-contract predicates over validated cards -/

def clauseMapHasKey (m : List (Int × ClauseMapItem)) (n : Int) : Bool :=
  m.any (fun kv => kv.1 == n)

/-- A citation resolves: null, or a key of the clause map. -/
def citeOk (m : List (Int × ClauseMapItem)) (sc : Option Int) : Bool :=
  match sc with
  | none => true
  | some n => clauseMapHasKey m n

/-- Every non-null sourceClauseId anywhere in the card is a key of the
clause map of the same card. -/
def cardCitationOk (c : SearchSuccessResponse) : Bool :=
  citeOk c.clauseMap c.productName.sourceClauseId &&
  citeOk c.clauseMap c.overview.sourceClauseId &&
  c.coreCoverage.all (fun i => citeOk c.clauseMap i.sourceClauseId) &&
  c.exclusions.all (fun i => citeOk c.clauseMap i.sourceClauseId) &&
  citeOk c.clauseMap c.targetAudience.sourceClauseId

/-- The reserved fallback marker of the extraction contract. -/
def fallbackMarker : String := "[条款未说明]"

/-- Marker value forces a null citation. -/
def fieldFallbackOk (value : String) (sc : Option Int) : Bool :=
  !(value == fallbackMarker) || sc == none

def cardFallbackOk (c : SearchSuccessResponse) : Bool :=
  fieldFallbackOk c.productName.value c.productName.sourceClauseId &&
  fieldFallbackOk c.overview.value c.overview.sourceClauseId &&
  c.coreCoverage.all (fun i => fieldFallbackOk i.value i.sourceClauseId) &&
  c.exclusions.all (fun i => fieldFallbackOk i.value i.sourceClauseId) &&
  fieldFallbackOk c.targetAudience.value c.targetAudience.sourceClauseId

/-! ## Context assembler (search route, buildContext) -/

/-- JavaScript String.prototype.trim: strip WhiteSpace and
LineTerminator characters, which is exactly the regex class of
isJsSpace, from both ends. -/
def jsTrim (s : String) : String :=
  String.mk (((s.data.dropWhile isJsSpace).reverse.dropWhile isJsSpace).reverse)

/-- Name lookup in the id-to-name map; product ids are a primary key,
so first match and last-writer-wins agree. -/
def lookupName (names : List (Nat × String)) (pid : Nat) : Option String :=
  (names.find? (fun kv => kv.1 == pid)).map (fun kv => kv.2)

/-- Snippet cap of the clause map: first 2000 characters plus an
ellipsis when longer. -/
def snippetOf (content : String) : String :=
  if content.length > 2000 then String.mk (content.data.take 2000) ++ "..." else content

/-- JavaScript object assignment on the clause map: replace in place
when the key exists, append otherwise. -/
def upsertClauseMap (m : List (Nat × ClauseMapItem)) (k : Nat) (v : ClauseMapItem) :
    List (Nat × ClauseMapItem) :=
  if m.any (fun kv => kv.1 == k) then m.map (fun kv => if kv.1 == k then (k, v) else kv)
  else m ++ [(k, v)]

structure BuildOut where
  context : String
  sources : List SourceInfoOut
  clauseMap : List (Nat × ClauseMapItem)
deriving Repr

/-- The loop of buildContext: rows with empty trimmed content are
skipped entirely; every retained row contributes one context part, one
sources entry and one clause-map binding under its clause id. -/
def buildLoop (names : List (Nat × String)) (parts : List String)
    (sources : List SourceInfoOut) (m : List (Nat × ClauseMapItem)) :
    List ClauseRow → List String × List SourceInfoOut × List (Nat × ClauseMapItem)
  | [] => (parts, sources, m)
  | r :: rest =>
    let name : Option String :=
      match r.product_id with
      | some pid => if pid == 0 then none else lookupName names pid
      | none => none
    let content := jsTrim (r.content.getD "")
    if content == "" then
      buildLoop names parts sources m rest
    else
      let header :=
        match name with
        | some n =>
          if n == "" then "条款ID#" ++ toString r.id
          else "【产品】" ++ n ++ "  条款ID#" ++ toString r.id
        | none => "条款ID#" ++ toString r.id
      buildLoop names (parts ++ [header ++ "\n" ++ content])
        (sources ++ [⟨(r.id : Int), name⟩])
        (upsertClauseMap m r.id ⟨snippetOf content, name⟩) rest

/-- buildContext: join the parts, truncate the tail at 6000
characters, and return the sources list and clause map alongside. -/
def buildContext (rows : List ClauseRow) (names : List (Nat × String)) : BuildOut :=
  let t := buildLoop names [] [] [] rows
  let ctx := String.intercalate "\n\n---\n\n" t.1
  { context := if ctx.length > 6000 then String.mk (ctx.data.take 6000) else ctx
    sources := t.2.1
    clauseMap := t.2.2 }

/-- getProductNames (src/lib/retrieval.ts): empty input short-circuits
without an RPC; otherwise an id-to-name map over the products table
with no filter on the active flag. -/
def getProductNames (db : Db) (ids : List Nat) : List (Nat × String) :=
  if ids.isEmpty then []
  else (db.products.filter (fun p => ids.contains p.id)).map (fun p => (p.id, p.name))

/-! ## Cache store (search_cache table) and invalidation -/

structure CacheEntry where
  id : Nat
  query_hash : String
  query_text : String
  result : JsonVal
  expires_at : Nat
  hit_count : Nat
deriving Repr

/-- The cache read of the search route: filter on exact query_hash and
unexpired expires_at, then maybeSingle, whose error on multiple rows
is caught and treated as a miss. -/
def cacheLookup (key : String) (now : Nat) (cache : List CacheEntry) : Option CacheEntry :=
  match cache.filter (fun e => e.query_hash == key && now < e.expires_at) with
  | [e] => some e
  | _ => none

/-- The dual-path deletion of the toggle-status route: delete by exact
normalized key on query_hash, then delete by ilike substring on
query_text. -/
def invalidateCache (productName : String) (cache : List CacheEntry) : List CacheEntry :=
  let key := getCacheKey productName
  (cache.filter (fun e => !(e.query_hash == key))).filter
    (fun e => !(ilikeContains e.query_text productName))

structure ToggleOut where
  db : Db
  cache : List CacheEntry

/-- The toggle-status route core: look up the product (single()),
update its active flag, then run the dual-path cache invalidation on
its name.  none models the 404 branch for an unknown id. -/
def toggleProductStatus (db : Db) (cache : List CacheEntry) (productId : Nat)
    (active : Bool) : Option ToggleOut :=
  match db.products.find? (fun p => p.id == productId) with
  | none => none
  | some p =>
    some { db := { products := db.products.map (fun q =>
                     if q.id == productId then { q with is_active := active } else q)
                   clauses := db.clauses }
           cache := invalidateCache p.name cache }

/-! ## Search route (POST handler) -/

/-- Raw request body after JSON parsing; none models an absent key. -/
structure ReqBody where
  query : Option String
  matchCount : Option Int
  matchThreshold : Option Rat
  debug : Option Bool

structure SearchReq where
  query : String
  matchCount : Nat
  matchThreshold : Rat
  debug : Bool
deriving DecidableEq, Repr

/-- SearchRequestSchema: query non-empty, matchCount an integer in 1
to 50 defaulting to 10, matchThreshold in 0 to 1 defaulting to one
tenth, debug defaulting to false. -/
def parseSearchRequest (b : ReqBody) : Option SearchReq := do
  let q ← b.query
  if q.length < 1 then none
  else
    let mc := b.matchCount.getD 10
    if mc < 1 || 50 < mc then none
    else
      let mt := b.matchThreshold.getD (mkRat 1 10)
      if mt < 0 || 1 < mt then none
      else pure { query := q, matchCount := mc.toNat, matchThreshold := mt,
                  debug := b.debug.getD false }

/-- Generation oracle: a transport error thrown into the outer catch,
or a completion whose text JSON-parses to the given value (none when
the text is not JSON, which triggers the legacy wrapper object). -/
inductive LlmBehavior where
  | rpcError (msg : String)
  | output (parsed : Option JsonVal)

structure SearchEnv where
  retr : RetrievalEnv
  cache : List CacheEntry
  now : Nat
  enableCache : Bool
  llm : LlmBehavior

inductive SearchOutcome where
  | validationError
  | invalidInput (query message : String)
  | cacheHit (result : JsonVal)
  | noSimilar (query : String)
  | schemaViolation (raw : JsonVal)
  | success (card : JsonVal)
  | internalError (message : String)
deriving Repr

/-- HTTP status of each outcome as set by the route. -/
def statusOf : SearchOutcome → Nat
  | SearchOutcome.validationError => 422
  | SearchOutcome.invalidInput _ _ => 200
  | SearchOutcome.cacheHit _ => 200
  | SearchOutcome.noSimilar _ => 200
  | SearchOutcome.schemaViolation _ => 500
  | SearchOutcome.success _ => 200
  | SearchOutcome.internalError _ => 500

/-- Array.from(new Set(..)): keep first occurrences in order. -/
def dedupFirstAux (seen : List Nat) : List Nat → List Nat
  | [] => []
  | x :: xs =>
    if seen.contains x then dedupFirstAux seen xs
    else x :: dedupFirstAux (seen ++ [x]) xs

def jsTruthy : JsonVal → Bool
  | JsonVal.null => false
  | JsonVal.bool b => b
  | JsonVal.num n => !(n == 0)
  | JsonVal.str s => !(s == "")
  | JsonVal.arr _ => true
  | JsonVal.obj _ => true

/-- jsonOut.productName?.value or jsonOut.productName or null, under
JavaScript truthiness. -/
def productNameValue (j : JsonVal) : Option JsonVal :=
  let pn := getField j "productName"
  let pnT : Option JsonVal :=
    match pn with
    | some p => if jsTruthy p then some p else none
    | none => none
  match pn.bind (fun v => getField v "value") with
  | some v => if jsTruthy v then some v else pnT
  | none => pnT

def optStrJson : Option String → JsonVal
  | none => JsonVal.null
  | some s => JsonVal.str s

def optNumJson : Option Nat → JsonVal
  | none => JsonVal.null
  | some n => JsonVal.num n

def sourcesJson (l : List SourceInfoOut) : JsonVal :=
  JsonVal.arr (l.map (fun s => JsonVal.obj
    [("clauseId", JsonVal.num s.clauseId), ("productName", optStrJson s.productName)]))

def clauseMapJson (m : List (Nat × ClauseMapItem)) : JsonVal :=
  JsonVal.obj (m.map (fun kv => (toString kv.1, JsonVal.obj
    [("snippet", JsonVal.str kv.2.snippet), ("productName", optStrJson kv.2.productName)])))

/-- Debug row dump; the float similarity field is omitted from the
JSON image, it only ever sits under the z.any() debug field. -/
def clauseRowJson (r : ClauseRow) : JsonVal :=
  JsonVal.obj [("id", JsonVal.num r.id), ("product_id", optNumJson r.product_id),
    ("content", optStrJson r.content)]

/-- The legacy wrapper object built when the completion text fails
JSON.parse; its plain-string productName cannot satisfy the success
schema. -/
def legacyFallbackJson (context : String) (sources : List SourceInfoOut) (raw : String) : JsonVal :=
  JsonVal.obj [("productName", JsonVal.str ""), ("overview", JsonVal.str ""),
    ("coreCoverage", JsonVal.arr []), ("exclusions", JsonVal.arr []),
    ("targetAudience", JsonVal.str ""), ("salesScript", JsonVal.arr []),
    ("rawTerms", JsonVal.str context), ("sources", sourcesJson sources),
    ("_raw", JsonVal.str raw)]

/-- The search POST handler: request-schema validation, input gate,
hybrid retrieval, cache check keyed by the matched product name,
not-found short circuit, product-name fetch, context assembly,
generation, output-schema validation, cache write.  The second
component lists the RPCs issued, in order. -/
def searchPost (env : SearchEnv) (body : ReqBody) : SearchOutcome × List Ev :=
  match parseSearchRequest body with
  | none => (SearchOutcome.validationError, [])
  | some req =>
    match isGibberish req.query with
    | some reason => (SearchOutcome.invalidInput req.query reason, [])
    | none =>
      let hr := hybridRetrieve req.query env.retr req.matchCount req.debug
      let R := hr.1
      let checkCache := isTruthyOptStr R.matchedProductName && env.enableCache
      let evC := hr.2 ++ (if checkCache then [Ev.cacheReadRpc] else [])
      let hit : Option CacheEntry :=
        if checkCache then
          cacheLookup (getCacheKey (R.matchedProductName.getD "")) env.now env.cache
        else none
      match hit with
      | some e =>
        (SearchOutcome.cacheHit (objSet e.result "_cached" (JsonVal.bool true)),
          evC ++ [Ev.cacheUpdateRpc])
      | none =>
        if R.rows.isEmpty || R.strategy == RetrievalStrategy.NO_RESULTS ||
            R.strategy == RetrievalStrategy.FAILED then
          (SearchOutcome.noSimilar req.query, evC)
        else
          let productIds := dedupFirstAux [] (R.rows.filterMap (fun r =>
            match r.product_id with
            | some p => if p == 0 then none else some p
            | none => none))
          let names := getProductNames env.retr.db productIds
          let evN := evC ++ (if productIds.isEmpty then [] else [Ev.productNamesRpc])
          let B := buildContext R.rows names
          let evG := evN ++ [Ev.generateRpc]
          match env.llm with
          | LlmBehavior.rpcError msg => (SearchOutcome.internalError msg, evG)
          | LlmBehavior.output parsed =>
            let jsonOut0 := parsed.getD (legacyFallbackJson B.context B.sources "")
            match jsonOut0 with
            | JsonVal.obj fs =>
              let j1 :=
                if req.debug then
                  objSet (objSet (objSet (JsonVal.obj fs) "_debugUsedFallback"
                      (JsonVal.bool (R.strategy == RetrievalStrategy.FALLBACK_ILIKE)))
                    "_debugContext" (JsonVal.str B.context))
                    "_debugMatches" (JsonVal.arr ((R.rows.take 20).map clauseRowJson))
                else JsonVal.obj fs
              let j2 := objSet (objSet j1 "sources" (sourcesJson B.sources))
                "clauseMap" (clauseMapJson B.clauseMap)
              match parseSearchSuccess j2 with
              | none => (SearchOutcome.schemaViolation j2, evG)
              | some _ =>
                let pnv := productNameValue j2
                let writes := env.enableCache &&
                  (match pnv with | some v => jsTruthy v | none => false) &&
                  checkCache && !(getCacheKey (R.matchedProductName.getD "") == "")
                (SearchOutcome.success j2,
                  evG ++ (if writes then [Ev.cacheWriteRpc] else []))
            | _ => (SearchOutcome.internalError "TypeError", evG)

/-! ## Outcome predicates for the citation contract -/

/-- The endpoint answered success and the validated card carries a
non-null sourceClauseId that is not a key of its own clause map. -/
def successHasDanglingCitation (o : SearchOutcome) : Bool :=
  match o with
  | SearchOutcome.success j =>
    match parseSearchSuccess j with
    | some card => !(cardCitationOk card)
    | none => false
  | _ => false

/-- The endpoint answered success and the validated card carries a
field whose value is the fallback marker with a non-null
sourceClauseId. -/
def successHasMarkerWithCitation (o : SearchOutcome) : Bool :=
  match o with
  | SearchOutcome.success j =>
    match parseSearchSuccess j with
    | some card => !(cardFallbackOk card)
    | none => false
  | _ => false

/-- Keys of a parsed clause map resolve an integer citation. -/
def keyResolves (m : List (Nat × ClauseMapItem)) (n : Int) : Bool :=
  m.any (fun kv => (kv.1 : Int) == n)

/-- Every sources entry resolves in the clause map. -/
def sourcesResolve (ss : List SourceInfoOut) (m : List (Nat × ClauseMapItem)) : Bool :=
  ss.all (fun s => keyResolves m s.clauseId)

/-! ## Concrete instances used by the counterexamples and witnesses -/

/-- One active product and one clause hit of it. -/
def demoDb : Db := { products := [⟨1, "平安福", true⟩], clauses := [] }

def demoHit : ClauseRow := ⟨10, some 1, some "保障责任的内容", some (mkRat 9 10)⟩

/-- Fully healthy retrieval environment over demoDb. -/
def okRetr : RetrievalEnv :=
  { db := demoDb, vecHits := fun k => [demoHit].take k,
    listActiveFails := false, embedFails := false, vectorFails := false,
    prodLikeFails := false, clauseFetchFails := false }

/-- A completion whose productName cites clause 999, absent from the
retrieved evidence. -/
def llmCardDangling : JsonVal :=
  JsonVal.obj [
    ("productName", JsonVal.obj [("value", JsonVal.str "平安福"),
      ("sourceClauseId", JsonVal.num 999)]),
    ("overview", JsonVal.obj [("value", JsonVal.str "医疗保障概述"),
      ("sourceClauseId", JsonVal.num 10)]),
    ("coreCoverage", JsonVal.arr []),
    ("exclusions", JsonVal.arr []),
    ("targetAudience", JsonVal.obj [("value", JsonVal.str "成年人"),
      ("sourceClauseId", JsonVal.null)]),
    ("salesScript", JsonVal.arr [JsonVal.str "推荐话术"]),
    ("rawTerms", JsonVal.str "条款原文")]

/-- A completion whose targetAudience is the fallback marker yet cites
clause 7. -/
def llmCardMarkerCited : JsonVal :=
  JsonVal.obj [
    ("productName", JsonVal.obj [("value", JsonVal.str "平安福"),
      ("sourceClauseId", JsonVal.num 10)]),
    ("overview", JsonVal.obj [("value", JsonVal.str "医疗保障概述"),
      ("sourceClauseId", JsonVal.num 10)]),
    ("coreCoverage", JsonVal.arr []),
    ("exclusions", JsonVal.arr []),
    ("targetAudience", JsonVal.obj [("value", JsonVal.str fallbackMarker),
      ("sourceClauseId", JsonVal.num 7)]),
    ("salesScript", JsonVal.arr [JsonVal.str "推荐话术"]),
    ("rawTerms", JsonVal.str "条款原文")]

def c1env : SearchEnv :=
  { retr := okRetr, cache := [], now := 0, enableCache := false,
    llm := LlmBehavior.output (some llmCardDangling) }

def c9env : SearchEnv :=
  { retr := okRetr, cache := [], now := 0, enableCache := false,
    llm := LlmBehavior.output (some llmCardMarkerCited) }

/-- Request body naming the demo product. -/
def demoBody : ReqBody := ⟨some "平安福", none, none, none⟩

/-- Two vector hits but a requested count of one, with no product-name
match: the VECTOR_ONLY path. -/
def c2retr : RetrievalEnv :=
  { db := { products := [], clauses := [] },
    vecHits := fun k => [demoHit, ⟨11, some 2, some "次要内容", some (mkRat 1 2)⟩].take k,
    listActiveFails := false, embedFails := false, vectorFails := false,
    prodLikeFails := false, clauseFetchFails := false }

/-- A pre-existing valid cache entry for the demo product. -/
def cachedCard : JsonVal := JsonVal.obj [("productName", JsonVal.str "平安福")]

def demoCacheEntry : CacheEntry :=
  { id := 1, query_hash := getCacheKey "平安福", query_text := "平安福",
    result := cachedCard, expires_at := 100, hit_count := 0 }

def c3env : SearchEnv :=
  { retr := okRetr, cache := [demoCacheEntry], now := 5, enableCache := true,
    llm := LlmBehavior.output (some llmCardDangling) }

/-- Healthy environment except that the vector-store RPC errors. -/
def c5retr : RetrievalEnv := { okRetr with vectorFails := true }

def c5env : SearchEnv :=
  { retr := c5retr, cache := [], now := 0, enableCache := false,
    llm := LlmBehavior.output (some llmCardDangling) }

/-- No vector hits and a failing registry ilike lookup: the fallback
path errors at its first RPC. -/
def c5retrB : RetrievalEnv :=
  { okRetr with vecHits := fun _ => [], prodLikeFails := true }

def c5envB : SearchEnv :=
  { retr := c5retrB, cache := [], now := 0, enableCache := false,
    llm := LlmBehavior.output (some llmCardDangling) }

/-- No vector hits, an ilike match on the demo product, and a failing
clause fetch: the fallback path errors at its second RPC. -/
def c5retrC : RetrievalEnv :=
  { okRetr with vecHits := fun _ => [], clauseFetchFails := true }

def c5envC : SearchEnv :=
  { retr := c5retrC, cache := [], now := 0, enableCache := false,
    llm := LlmBehavior.output (some llmCardDangling) }

/-- A failing vector store together with an enabled cache holding a
valid entry for the matched name: the FAILED request is answered from
the cache. -/
def c5envD : SearchEnv :=
  { retr := c5retr, cache := [demoCacheEntry], now := 5, enableCache := true,
    llm := LlmBehavior.output (some llmCardDangling) }

/-- Two active products whose normalized names overlap: the query is
exactly the first name and a substring of the second. -/
def c6db : Db := { products := [⟨1, "甲", true⟩, ⟨2, "甲乙", true⟩], clauses := [] }

def c6retr : RetrievalEnv :=
  { db := c6db,
    vecHits := fun k =>
      [⟨10, some 1, some "甲的条款", some (mkRat 9 10)⟩,
       ⟨11, some 2, some "甲乙的条款", some (mkRat 8 10)⟩].take k,
    listActiveFails := false, embedFails := false, vectorFails := false,
    prodLikeFails := false, clauseFetchFails := false }

/-- One product that exactly matches and one hit belonging to it: the
single-match witness environment. -/
def c6wRetr : RetrievalEnv :=
  { db := { products := [⟨1, "甲", true⟩], clauses := [] },
    vecHits := fun k => [⟨10, some 1, some "甲的条款", some (mkRat 9 10)⟩].take k,
    listActiveFails := false, embedFails := false, vectorFails := false,
    prodLikeFails := false, clauseFetchFails := false }

/-- One inactive product whose name contains the query, and no vector
hits: the ilike fallback serves its clauses. -/
def c10db : Db :=
  { products := [⟨7, "旧版重疾险", false⟩],
    clauses := [⟨21, some 7, some "旧版条款内容"⟩] }

def c10retr : RetrievalEnv :=
  { db := c10db, vecHits := fun _ => [],
    listActiveFails := false, embedFails := false, vectorFails := false,
    prodLikeFails := false, clauseFetchFails := false }

/-- Cache with one entry reachable only by the hash path and one
reachable only by the substring path. -/
def c8cache : List CacheEntry :=
  [{ id := 1, query_hash := getCacheKey "安心无忧医疗险", query_text := "别名",
     result := cachedCard, expires_at := 100, hit_count := 2 },
   { id := 2, query_hash := "旧规则键", query_text := "安心无忧医疗险信息卡",
     result := cachedCard, expires_at := 100, hit_count := 0 }]

def c8db : Db := { products := [⟨3, "安心无忧医疗险", true⟩], clauses := [] }

/-! # Theorems -/

/-! ## Shared list lemmas -/

theorem map_eq_self_of_eq {α : Type} {f : α → α} {l : List α}
    (h : ∀ a ∈ l, f a = a) : l.map f = l := by
  induction l with
  | nil => rfl
  | cons a t ih =>
    simp only [List.map_cons]
    rw [h a (List.mem_cons_self a t), ih (fun b hb => h b (List.mem_cons_of_mem a hb))]

theorem flatMap_eq_self_of_eq {α : Type} {f : α → List α} {l : List α}
    (h : ∀ a ∈ l, f a = [a]) : l.flatMap f = l := by
  induction l with
  | nil => rfl
  | cons a t ih =>
    simp only [List.flatMap_cons]
    rw [h a (List.mem_cons_self a t), ih (fun b hb => h b (List.mem_cons_of_mem a hb))]
    rfl

/-! ## Normalizer: characterization of the output characters -/

/-- Every character surviving one normalizer pass over a stable string
is fixed by lower-casing and NFKC and passes both strip filters. -/
theorem normalize_chars {s : String} {d : Char}
    (hall : s.data.all stableChar = true)
    (hd : d ∈ (normalizeProductName s).data) :
    jsLower d = d ∧ nfkcChar d = [d] ∧ isJsSpace d = false ∧ isStripPunct d = false := by
  replace hd : d ∈ (((s.data.map jsLower).flatMap nfkcChar).filter
      (fun c => !(isJsSpace c))).filter (fun c => !(isStripPunct c)) := hd
  rw [List.mem_filter] at hd
  obtain ⟨hd, hp⟩ := hd
  rw [List.mem_filter] at hd
  obtain ⟨hd, hw⟩ := hd
  rw [List.mem_flatMap] at hd
  obtain ⟨e, he, hde⟩ := hd
  rw [List.mem_map] at he
  obtain ⟨c, hc, rfl⟩ := he
  rw [List.all_eq_true] at hall
  have hst := hall c hc
  rw [stableChar, List.all_eq_true] at hst
  have := hst d hde
  rw [Bool.and_eq_true, beq_iff_eq, beq_iff_eq] at this
  refine ⟨this.1, this.2, ?_, ?_⟩
  · cases hq : isJsSpace d with
    | false => rfl
    | true => rw [hq] at hw; exact absurd hw (by decide)
  · cases hq : isStripPunct d with
    | false => rfl
    | true => rw [hq] at hp; exact absurd hp (by decide)

/-- One pass reaches a fixed point on stable strings. -/
theorem normalize_idem_of_stable (s : String) (h : s.data.all stableChar = true) :
    normalizeProductName (normalizeProductName s) = normalizeProductName s := by
  have key : ∀ d ∈ (normalizeProductName s).data,
      jsLower d = d ∧ nfkcChar d = [d] ∧ isJsSpace d = false ∧ isStripPunct d = false :=
    fun d hd => normalize_chars h hd
  show String.mk _ = normalizeProductName s
  have h1 : (normalizeProductName s).data.map jsLower = (normalizeProductName s).data :=
    map_eq_self_of_eq (fun a ha => (key a ha).1)
  have h2 : ((normalizeProductName s).data.map jsLower).flatMap nfkcChar =
      (normalizeProductName s).data := by
    rw [h1]; exact flatMap_eq_self_of_eq (fun a ha => (key a ha).2.1)
  rw [h2]
  have h3 : (normalizeProductName s).data.filter (fun c => !(isJsSpace c)) =
      (normalizeProductName s).data :=
    List.filter_eq_self.mpr (fun a ha => by rw [(key a ha).2.2.1]; rfl)
  rw [h3]
  have h4 : (normalizeProductName s).data.filter (fun c => !(isStripPunct c)) =
      (normalizeProductName s).data :=
    List.filter_eq_self.mpr (fun a ha => by rw [(key a ha).2.2.2]; rfl)
  rw [h4]

/-- Claim C7, counterexample: the two example strings of the claim do
not normalize to the same key.  NFKC sends the fullwidth exclamation
mark to ASCII 0x21, which is not in the stripped punctuation set, so
the second string keeps a trailing exclamation mark. -/
theorem c7_counterexample :
    normalizeProductName "安心 无忧-医疗险！" ≠ normalizeProductName "安心无忧医疗险" := by
  decide

/-- Claim C7, amended: the normalizer is idempotent on every string of
stable characters, and stability covers ASCII and CJK ideographs; it
is not idempotent on all strings, witnessed by the degree Celsius
sign, whose NFKC expansion introduces an upper-case letter; and the
whitespace and dash variant of the example collapses to the same key,
while the fullwidth exclamation variant normalizes to the key plus a
trailing ASCII exclamation mark. -/
theorem c7_amended :
    (∀ s : String, s.data.all stableChar = true →
      normalizeProductName (normalizeProductName s) = normalizeProductName s) ∧
    normalizeProductName "安心 无忧-医疗险" = normalizeProductName "安心无忧医疗险" ∧
    normalizeProductName "安心 无忧-医疗险！" = "安心无忧医疗险!" ∧
    normalizeProductName (normalizeProductName "℃") ≠ normalizeProductName "℃" :=
  ⟨fun s h => normalize_idem_of_stable s h, by decide, by decide, by decide⟩

/-- Witness for c7_amended at a concrete stable string. -/
theorem c7_witness :
    "平安福".data.all stableChar = true ∧
    normalizeProductName (normalizeProductName "平安福") = normalizeProductName "平安福" :=
  ⟨by decide, c7_amended.1 "平安福" (by decide)⟩

/-! ## Input gate: equivalence with the claimed condition -/

theorem lineTerm_isJsSpace (c : Char) (h : isLineTerm c = true) : isJsSpace c = true := by
  have hn : c.toNat = 10 ∨ c.toNat = 13 ∨ c.toNat = 0x2028 ∨ c.toNat = 0x2029 := by
    rw [isLineTerm] at h
    simp only [Bool.or_eq_true, beq_iff_eq] at h
    rcases h with ((h | h) | h) | h
    · left; rw [h]; rfl
    · right; left; rw [h]; rfl
    · right; right; left; exact h
    · right; right; right; exact h
  rw [isJsSpace]
  rcases hn with h | h | h | h <;> simp [h]

/-- The gate as a plain disjunction of its five checks. -/
theorem isGibberish_isSome (q : String) :
    (isGibberish q).isSome =
      (decide (q.length < 2) || matchesAllOf isAsciiDigitB q ||
        (matchesAllOf isAsciiLetterB q && decide (q.length < 3)) ||
        matchesAllOf (fun c => isJsSpace c || isAsciiPunctB c) q ||
        isRepeatedChar q) := by
  rw [isGibberish]
  split_ifs with h1 h2 h3 h4 h5 <;> simp_all

/-- Replacing the last disjunct by a weaker one that is covered by the
fourth disjunct leaves the disjunction unchanged. -/
theorem or_last_congr {A B C D E Ep : Bool}
    (h1 : E = true → Ep = true)
    (h2 : Ep = true → D = true ∨ E = true) :
    (A || B || C || D || Ep) = (A || B || C || D || E) := by
  cases A <;> cases B <;> cases C <;> cases D <;> cases E <;> cases Ep <;> simp_all

/-- The claim wording of the repeated-character check (no line
terminator exclusion) implies the whitespace check or the code
check. -/
theorem spec5_cases (q : String)
    (h : (match q.data with
          | [] => false
          | c :: rest => rest.all (fun d => d == c) && decide (q.length ≥ 4)) = true) :
    matchesAllOf (fun c => isJsSpace c || isAsciiPunctB c) q = true ∨
      isRepeatedChar q = true := by
  rcases hq : q.data with _ | ⟨c, rest⟩
  · rw [hq] at h; simp at h
  · rw [hq] at h
    rw [Bool.and_eq_true] at h
    obtain ⟨hall, hlen⟩ := h
    by_cases hlt : isLineTerm c = true
    · left
      rw [matchesAllOf, hq]
      have hcs : isJsSpace c = true := lineTerm_isJsSpace c hlt
      simp only [List.isEmpty_cons, Bool.not_false, Bool.true_and, List.all_cons, hcs,
        Bool.true_or, Bool.true_and]
      rw [List.all_eq_true] at hall ⊢
      intro d hd
      have : d = c := by have := hall d hd; rwa [beq_iff_eq] at this
      subst this
      simp [hcs]
    · right
      rw [isRepeatedChar, hq]
      simp only [Bool.not_eq_true] at hlt
      simp [hlt, hall, hlen]

/-- The code check implies the claim check. -/
theorem code5_imp (q : String) (h : isRepeatedChar q = true) :
    (match q.data with
     | [] => false
     | c :: rest => rest.all (fun d => d == c) && decide (q.length ≥ 4)) = true := by
  rw [isRepeatedChar] at h
  rcases hq : q.data with _ | ⟨c, rest⟩
  · rw [hq] at h; simp at h
  · rw [hq] at h
    rw [Bool.and_eq_true, Bool.and_eq_true] at h
    simp [h.1.2, h.2, ge_iff_le]

/-- The gate rejects exactly the queries the claim describes. -/
theorem c4_gate_equiv (q : String) : gateRejectSpec q = (isGibberish q).isSome := by
  rw [isGibberish_isSome q, gateRejectSpec]
  exact or_last_congr (code5_imp q) (spec5_cases q)

/-- Every rejection reason carried by the gate is non-empty. -/
theorem gibberish_msg_nonempty {q msg : String} (h : isGibberish q = some msg) :
    msg ≠ "" := by
  rw [isGibberish] at h
  split_ifs at h <;> simp only [Option.some.injEq] at h
  · subst h; decide
  · subst h; decide
  · subst h; decide
  · subst h; decide
  · subst h; decide

/-- A rejected request returns the INVALID_INPUT outcome, carrying the
reason, with no RPC issued. -/
theorem c4_route {env : SearchEnv} {body : ReqBody} {req : SearchReq} {msg : String}
    (hreq : parseSearchRequest body = some req)
    (hmsg : isGibberish req.query = some msg) :
    searchPost env body = (SearchOutcome.invalidInput req.query msg, []) := by
  simp only [searchPost, hreq, hmsg]

/-- Claim C4, counterexample: the empty query has length below two,
but the endpoint answers it with the 422 request-validation outcome of
SearchRequestSchema (query min length 1), not with a notFound outcome
of reason INVALID_INPUT. -/
theorem c4_counterexample :
    "".length < 2 ∧
    searchPost c1env ⟨some "", none, none, none⟩ = (SearchOutcome.validationError, []) ∧
    statusOf (searchPost c1env ⟨some "", none, none, none⟩).1 = 422 :=
  ⟨by decide, rfl, rfl⟩

/-- Claim C4, amended: for every query that passes request-schema
validation (length at least one), the gate rejects exactly the queries
the claim lists, the rejection returns a notFound outcome of reason
INVALID_INPUT carrying a non-empty human-readable message before any
RPC is issued, and every other query passes the gate; the empty query
alone is answered earlier by request validation. -/
theorem c4_amended :
    (∀ q : String, gateRejectSpec q = (isGibberish q).isSome) ∧
    (∀ (env : SearchEnv) (body : ReqBody) (req : SearchReq) (msg : String),
      parseSearchRequest body = some req →
      isGibberish req.query = some msg →
      searchPost env body = (SearchOutcome.invalidInput req.query msg, []) ∧ msg ≠ "") :=
  ⟨c4_gate_equiv,
   fun _ _ _ _ hreq hmsg => ⟨c4_route hreq hmsg, gibberish_msg_nonempty hmsg⟩⟩

/-! ## Retrieval truncation (C2) -/

/-- phase3 either passes the vector rows through untouched under the
VECTOR_ONLY tag, or truncates to matchCount. -/
theorem phase3_spec (ids : List Nat) (rows0 : List ClauseRow) (mc : Nat) :
    ((phase3 ids rows0 mc).2 = RetrievalStrategy.VECTOR_ONLY ∧
      (phase3 ids rows0 mc).1 = rows0) ∨
    ((phase3 ids rows0 mc).2 ≠ RetrievalStrategy.VECTOR_ONLY ∧
      (phase3 ids rows0 mc).1.length ≤ mc) := by
  simp only [phase3]
  split
  · split
    · exact Or.inr ⟨by simp, List.length_take_le _ _⟩
    · exact Or.inr ⟨by simp, List.length_take_le _ _⟩
  · exact Or.inl ⟨rfl, rfl⟩

/-- The non-fallback exit of the engine, phrased over the assembled
result record. -/
theorem final_branch_case (ids : List Nat) (rows0 : List ClauseRow) (mc : Nat)
    (nm : Option String) (dbg : Bool) (prods : List ProductInfo) :
    ((finishResult (phase3 ids rows0 mc).1 ids nm (phase3 ids rows0 mc).2
        dbg rows0 prods).strategy = RetrievalStrategy.VECTOR_ONLY ∧
      (finishResult (phase3 ids rows0 mc).1 ids nm (phase3 ids rows0 mc).2
        dbg rows0 prods).rows = rows0) ∨
    ((finishResult (phase3 ids rows0 mc).1 ids nm (phase3 ids rows0 mc).2
        dbg rows0 prods).strategy ≠ RetrievalStrategy.VECTOR_ONLY ∧
      (finishResult (phase3 ids rows0 mc).1 ids nm (phase3 ids rows0 mc).2
        dbg rows0 prods).rows.length ≤ mc) := by
  simpa [finishResult] using phase3_spec ids rows0 mc

/-- Every exit of the engine: VECTOR_ONLY returns the raw over-fetched
rows, every other strategy at most matchCount rows. -/
theorem hybrid_cases (query : String) (env : RetrievalEnv) (mc : Nat) (dbg : Bool) :
    ((hybridRetrieve query env mc dbg).1.strategy = RetrievalStrategy.VECTOR_ONLY ∧
      (hybridRetrieve query env mc dbg).1.rows = env.vecHits (mc * 2)) ∨
    ((hybridRetrieve query env mc dbg).1.strategy ≠ RetrievalStrategy.VECTOR_ONLY ∧
      (hybridRetrieve query env mc dbg).1.rows.length ≤ mc) := by
  simp only [hybridRetrieve]
  split_ifs <;>
    first
      | exact final_branch_case _ _ _ _ _ _
      | (refine Or.inr ⟨?_, ?_⟩ <;>
          simp [finishResult, fallbackClauseRows, List.length_take])

/-- Claim C2, counterexample: with a requested count of one and two
vector hits above threshold, no product-name match resolves the
request to VECTOR_ONLY, and the engine returns both rows — the
truncation step is skipped on that path. -/
theorem c2_counterexample :
    (hybridRetrieve "重疾险" c2retr 1 false).1.strategy = RetrievalStrategy.VECTOR_ONLY ∧
    ¬ ((hybridRetrieve "重疾险" c2retr 1 false).1.rows.length ≤ 1) :=
  ⟨rfl, by decide⟩

/-- Claim C2, amended: the engine calls the vector store at twice the
requested count and truncates to the requested count on the
PRODUCT_NAME_MATCH and PRODUCT_NAME_RERANK paths, and the fallback
fetch is limited to the requested count, so every strategy except
VECTOR_ONLY returns at most matchCount rows; on the VECTOR_ONLY path
the truncation is skipped and the engine returns the full over-fetched
list, up to twice matchCount rows. -/
theorem c2_amended (query : String) (env : RetrievalEnv) (mc : Nat) (dbg : Bool) :
    ((hybridRetrieve query env mc dbg).1.strategy ≠ RetrievalStrategy.VECTOR_ONLY →
      (hybridRetrieve query env mc dbg).1.rows.length ≤ mc) ∧
    ((hybridRetrieve query env mc dbg).1.strategy = RetrievalStrategy.VECTOR_ONLY →
      (hybridRetrieve query env mc dbg).1.rows = env.vecHits (mc * 2)) := by
  rcases hybrid_cases query env mc dbg with ⟨hv, hr⟩ | ⟨hv, hr⟩
  · exact ⟨fun hn => absurd hv hn, fun _ => hr⟩
  · exact ⟨fun _ => hr, fun hs => absurd hs hv⟩

/-- Witness for c2_amended at the VECTOR_ONLY environment. -/
theorem c2_witness :
    (hybridRetrieve "重疾险" c2retr 1 false).1.strategy = RetrievalStrategy.VECTOR_ONLY ∧
    (hybridRetrieve "重疾险" c2retr 1 false).1.rows = c2retr.vecHits (1 * 2) :=
  ⟨by decide, (c2_amended "重疾险" c2retr 1 false).2 (by decide)⟩

/-! ## Name-match tier: characterization of the priority set -/

theorem isPrefixOf_self (l : List Char) : l.isPrefixOf l = true := by
  induction l with
  | nil => rfl
  | cons c t ih => simp [List.isPrefixOf, ih]

theorem isInfixB_refl (l : List Char) : isInfixB l l = true := by
  cases l with
  | nil => rfl
  | cons c t => rw [isInfixB]; simp [isPrefixOf_self]

/-- A name bidirectionally matches its own normalized form. -/
theorem nameMatches_self (name : String) :
    nameMatches (normalizeProductName name) name = true := by
  rw [nameMatches]
  simp only [strIncludes, isInfixB_refl, Bool.or_self]

/-- The ids accumulated by the phase-1 loop are exactly the ids of the
matching products, in table order. -/
theorem priorityLoop_fst (qn : String) (ps : List ProductInfo) :
    ∀ (ids : List Nat) (m : Option String),
      (priorityLoop qn ids m ps).1 =
        ids ++ (ps.filter (fun p => nameMatches qn p.name)).map (fun p => p.id) := by
  induction ps with
  | nil => intro ids m; simp [priorityLoop]
  | cons p rest ih =>
    intro ids m
    rw [priorityLoop]
    by_cases h : nameMatches qn p.name = true
    · rw [if_pos h, ih]
      simp [List.filter_cons, h]
    · rw [if_neg h, ih]
      simp [List.filter_cons, h]

theorem mem_priorityIds {qn : String} {ps : List ProductInfo} {i : Nat} :
    i ∈ (priorityLoop qn [] none ps).1 ↔
      ∃ p, p ∈ ps ∧ nameMatches qn p.name = true ∧ p.id = i := by
  rw [priorityLoop_fst]
  simp only [List.nil_append, List.mem_map, List.mem_filter]
  constructor
  · rintro ⟨p, ⟨hp, hm⟩, hi⟩; exact ⟨p, hp, hm, hi⟩
  · rintro ⟨p, hp, hm, hi⟩; exact ⟨p, ⟨hp, hm⟩, hi⟩

/-- Every exit of the engine carries either an empty priority set or
the phase-1 set over the active products. -/
theorem hybrid_priorityIds (query : String) (env : RetrievalEnv) (mc : Nat) (dbg : Bool) :
    (hybridRetrieve query env mc dbg).1.priorityProductIds = [] ∨
    (hybridRetrieve query env mc dbg).1.priorityProductIds =
      (priorityLoop (normalizeProductName query) [] none
        (if env.listActiveFails then []
         else (env.db.products.filter (fun p => p.is_active)).map
           (fun p => ⟨p.id, p.name⟩))).1 := by
  simp only [hybridRetrieve]
  split_ifs <;> simp [finishResult]

/-- The engine on the PRODUCT_NAME_MATCH and RERANK exits: when phase3
keeps rows, the result is assembled directly from it. -/
theorem hybrid_match_exit (query : String) (env : RetrievalEnv) (mc : Nat) (dbg : Bool)
    (ids : List Nat) (nm : Option String)
    (hemb : env.embedFails = false) (hvec : env.vectorFails = false)
    (hpr : priorityLoop (normalizeProductName query) [] none
        (if env.listActiveFails then []
         else (env.db.products.filter (fun p => p.is_active)).map
           (fun p => ⟨p.id, p.name⟩)) = (ids, nm))
    (hne : (phase3 ids (env.vecHits (mc * 2)) mc).1.isEmpty = false) :
    (hybridRetrieve query env mc dbg).1.rows = (phase3 ids (env.vecHits (mc * 2)) mc).1 ∧
    (hybridRetrieve query env mc dbg).1.strategy = (phase3 ids (env.vecHits (mc * 2)) mc).2 := by
  simp only [hybridRetrieve, hemb, hvec, hpr, hne]
  simp [finishResult]

/-- Claim C6, counterexample: the query is exactly the name of active
product one, the hits include a clause of product one, the strategy is
PRODUCT_NAME_MATCH — yet a row of product two survives, because the
name of product two also contains the query, so the priority set holds
both ids and evidence of the other product is not discarded. -/
theorem c6_counterexample :
    c6db.products = [⟨1, "甲", true⟩, ⟨2, "甲乙", true⟩] ∧
    (hybridRetrieve "甲" c6retr 10 false).1.strategy = RetrievalStrategy.PRODUCT_NAME_MATCH ∧
    (hybridRetrieve "甲" c6retr 10 false).1.rows.map (fun r => r.product_id) =
      [some 1, some 2] ∧
    ((hybridRetrieve "甲" c6retr 10 false).1.rows.all
      (fun r => r.product_id == some 1)) = false :=
  ⟨rfl, rfl, rfl, rfl⟩

/-- Claim C6, amended: if additionally no other active product matches
the query under the bidirectional containment test (the priority set
is a singleton), then the strategy is PRODUCT_NAME_MATCH and every
returned row belongs to the matched product. -/
theorem c6_amended (env : RetrievalEnv) (p : ProductRow) (mc : Nat) (dbg : Bool)
    (query : String) (r : ClauseRow)
    (hla : env.listActiveFails = false)
    (hemb : env.embedFails = false) (hvec : env.vectorFails = false)
    (hmc : 1 ≤ mc)
    (hp : p ∈ env.db.products) (hact : p.is_active = true)
    (hqe : query = p.name)
    (hid : p.id ≠ 0)
    (huniq : ∀ q ∈ env.db.products, q.is_active = true →
      nameMatches (normalizeProductName query) q.name = true → q.id = p.id)
    (hr : r ∈ env.vecHits (mc * 2)) (hrp : r.product_id = some p.id) :
    (hybridRetrieve query env mc dbg).1.strategy = RetrievalStrategy.PRODUCT_NAME_MATCH ∧
    ∀ s ∈ (hybridRetrieve query env mc dbg).1.rows, s.product_id = some p.id := by
  have hifA : (if env.listActiveFails then []
      else (env.db.products.filter (fun x => x.is_active)).map
        (fun x => (⟨x.id, x.name⟩ : ProductInfo))) =
      (env.db.products.filter (fun x => x.is_active)).map
        (fun x => (⟨x.id, x.name⟩ : ProductInfo)) := by
    rw [hla]; rfl
  obtain ⟨ids, nm, hpr⟩ :
      ∃ ids nm, priorityLoop (normalizeProductName query) [] none
        ((env.db.products.filter (fun x => x.is_active)).map
          (fun x => (⟨x.id, x.name⟩ : ProductInfo))) = (ids, nm) := ⟨_, _, rfl⟩
  have hmemp : p.id ∈ ids := by
    have hA : (⟨p.id, p.name⟩ : ProductInfo) ∈
        (env.db.products.filter (fun x => x.is_active)).map
          (fun x => (⟨x.id, x.name⟩ : ProductInfo)) :=
      List.mem_map.mpr ⟨p, List.mem_filter.mpr ⟨hp, by simp [hact]⟩, rfl⟩
    have hmatch : nameMatches (normalizeProductName query) p.name = true := by
      rw [hqe]; exact nameMatches_self p.name
    have := mem_priorityIds.mpr ⟨⟨p.id, p.name⟩, hA, hmatch, rfl⟩
    rwa [hpr] at this
  have hall : ∀ i ∈ ids, i = p.id := by
    intro i hi
    have hi2 : i ∈ (priorityLoop (normalizeProductName query) [] none
        ((env.db.products.filter (fun x => x.is_active)).map
          (fun x => (⟨x.id, x.name⟩ : ProductInfo)))).1 := by rw [hpr]; exact hi
    obtain ⟨pi, hpiA, hpim, hpieq⟩ := mem_priorityIds.mp hi2
    obtain ⟨q, hqf, hqpi⟩ := List.mem_map.mp hpiA
    obtain ⟨hqmem, hqact⟩ := List.mem_filter.mp hqf
    have hqid : q.id = p.id :=
      huniq q hqmem (by simpa using hqact) (by rw [← hqpi] at hpim; exact hpim)
    rw [← hpieq, ← hqpi]
    exact hqid
  have hrip : rowInPriority ids r = true := by
    rw [rowInPriority, hrp]
    simp [hid, hmemp]
  have hprf : r ∈ priorityFilter ids (env.vecHits (mc * 2)) :=
    List.mem_filter.mpr ⟨hr, hrip⟩
  have hprne : priorityFilter ids (env.vecHits (mc * 2)) ≠ [] :=
    List.ne_nil_of_mem hprf
  have hidsne : ids ≠ [] := List.ne_nil_of_mem hmemp
  have hrowsne : env.vecHits (mc * 2) ≠ [] := List.ne_nil_of_mem hr
  have c1 : (!ids.isEmpty && !(env.vecHits (mc * 2)).isEmpty) = true := by
    simp [List.isEmpty_iff, hidsne, hrowsne]
  have c2 : (!(priorityFilter ids (env.vecHits (mc * 2))).isEmpty) = true := by
    simp [List.isEmpty_iff, hprne]
  have hph : phase3 ids (env.vecHits (mc * 2)) mc =
      ((priorityFilter ids (env.vecHits (mc * 2))).take mc,
        RetrievalStrategy.PRODUCT_NAME_MATCH) := by
    simp only [phase3]
    rw [if_pos c1, if_pos c2]
  have htne : (phase3 ids (env.vecHits (mc * 2)) mc).1.isEmpty = false := by
    rw [hph]
    rcases hl : priorityFilter ids (env.vecHits (mc * 2)) with _ | ⟨a, t⟩
    · exact absurd hl hprne
    · cases mc with
      | zero => exact absurd hmc (by omega)
      | succ n => simp
  obtain ⟨hrows, hstrat⟩ := hybrid_match_exit query env mc dbg ids nm hemb hvec
    (by rw [hifA]; exact hpr) htne
  refine ⟨by rw [hstrat, hph], ?_⟩
  intro s hs
  rw [hrows, hph] at hs
  have hs2 : s ∈ priorityFilter ids (env.vecHits (mc * 2)) := List.mem_of_mem_take hs
  have hmem := (List.mem_filter.mp hs2).2
  rcases hsp : s.product_id with _ | n
  · rw [rowInPriority, hsp] at hmem
    simp at hmem
  · rw [rowInPriority, hsp, Bool.and_eq_true] at hmem
    have hn : n ∈ ids := by simpa using hmem.2
    rw [hall n hn]

/-- Witness for c6_amended: a single active product exactly matching
the query, one hit of it. -/
theorem c6_witness :
    (hybridRetrieve "甲" c6wRetr 10 false).1.strategy = RetrievalStrategy.PRODUCT_NAME_MATCH ∧
    ∀ s ∈ (hybridRetrieve "甲" c6wRetr 10 false).1.rows, s.product_id = some 1 :=
  c6_amended c6wRetr ⟨1, "甲", true⟩ 10 false "甲"
    ⟨10, some 1, some "甲的条款", some (mkRat 9 10)⟩
    rfl rfl rfl (by omega) (by decide) rfl rfl (by decide) (by decide) (by decide) rfl

/-- Claim C10: the name-match tier considers only active products —
every priority product id belongs to an is_active row — while the
ilike fallback has no filter on the active flag: in the concrete
environment the only product is inactive, the query is a substring of
its name, the vector store returns nothing, and the engine resolves to
FALLBACK_ILIKE serving that inactive product's clauses. -/
theorem c10_theorem :
    (∀ (query : String) (env : RetrievalEnv) (mc : Nat) (dbg : Bool),
      ((hybridRetrieve query env mc dbg).1.priorityProductIds.all (fun i =>
        ((env.db.products.filter (fun p => p.is_active)).map
          (fun p => p.id)).contains i)) = true) ∧
    ((hybridRetrieve "重疾" c10retr 10 false).1.strategy = RetrievalStrategy.FALLBACK_ILIKE ∧
      (hybridRetrieve "重疾" c10retr 10 false).1.rows.map (fun r => r.product_id) = [some 7] ∧
      (c10db.products.all (fun p => !p.is_active)) = true) := by
  constructor
  · intro query env mc dbg
    rcases hybrid_priorityIds query env mc dbg with h | h
    · simp [h]
    · rw [h, List.all_eq_true]
      intro i hi
      cases hla : env.listActiveFails
      · rw [hla] at hi
        simp only [Bool.false_eq_true, if_false] at hi
        obtain ⟨pi, hpiA, _, hpieq⟩ := mem_priorityIds.mp hi
        obtain ⟨q, hqf, hqpi⟩ := List.mem_map.mp hpiA
        have : i ∈ (env.db.products.filter (fun p => p.is_active)).map (fun p => p.id) :=
          List.mem_map.mpr ⟨q, hqf, by rw [← hpieq, ← hqpi]⟩
        simp [this]
      · rw [hla] at hi
        simp [priorityLoop] at hi
  · exact ⟨rfl, rfl, rfl⟩

/-! ## Cache invalidation (C8) -/

/-- Survivors of the dual-path deletion match neither path. -/
theorem invalidateCache_mem {name : String} {cache : List CacheEntry} {e : CacheEntry}
    (h : e ∈ invalidateCache name cache) :
    (e.query_hash == getCacheKey name) = false ∧
      ilikeContains e.query_text name = false := by
  rw [invalidateCache] at h
  obtain ⟨h1, h2⟩ := List.mem_filter.mp h
  obtain ⟨_, h3⟩ := List.mem_filter.mp h1
  constructor
  · cases hq : (e.query_hash == getCacheKey name) with
    | false => rfl
    | true => rw [hq] at h3; exact absurd h3 (by decide)
  · cases hq : ilikeContains e.query_text name with
    | false => rfl
    | true => rw [hq] at h2; exact absurd h2 (by decide)

/-- After invalidation, a read by that normalized key misses. -/
theorem cacheLookup_invalidate (name : String) (cache : List CacheEntry) (now : Nat) :
    cacheLookup (getCacheKey name) now (invalidateCache name cache) = none := by
  rw [cacheLookup]
  have hnil : (invalidateCache name cache).filter
      (fun e => e.query_hash == getCacheKey name && now < e.expires_at) = [] := by
    rw [List.filter_eq_nil_iff]
    intro e he
    rw [Bool.and_eq_true]
    rintro ⟨h1, _⟩
    rw [(invalidateCache_mem he).1] at h1
    exact absurd h1 (by decide)
  rw [hnil]

/-- Claim C8: toggling a product runs the dual-path invalidation on
its name — every surviving entry fails both the exact normalized-key
test and the ilike substring test — and a subsequent lookup by that
normalized key is a guaranteed miss. -/
theorem c8_theorem (db : Db) (cache : List CacheEntry) (productId : Nat) (active : Bool)
    (now : Nat) (p : ProductRow) (res : ToggleOut)
    (hfind : db.products.find? (fun q => q.id == productId) = some p)
    (htog : toggleProductStatus db cache productId active = some res) :
    res.cache = invalidateCache p.name cache ∧
    ((invalidateCache p.name cache).all (fun e =>
      !(e.query_hash == getCacheKey p.name) &&
      !(ilikeContains e.query_text p.name))) = true ∧
    cacheLookup (getCacheKey p.name) now res.cache = none := by
  have hc : res.cache = invalidateCache p.name cache := by
    simp only [toggleProductStatus, hfind, Option.some.injEq] at htog
    rw [← htog]
  refine ⟨hc, ?_, ?_⟩
  · rw [List.all_eq_true]
    intro e he
    obtain ⟨h1, h2⟩ := invalidateCache_mem he
    simp [h1, h2]
  · rw [hc]
    exact cacheLookup_invalidate p.name cache now

/-- Witness for c8_theorem: one entry removed by the hash path, one by
the substring path; the toggled product is found; the lookup
misses. -/
theorem c8_witness :
    (({ db := { products := [⟨3, "安心无忧医疗险", false⟩], clauses := [] },
        cache := ([] : List CacheEntry) } : ToggleOut).cache =
      invalidateCache "安心无忧医疗险" c8cache) ∧
    ((invalidateCache "安心无忧医疗险" c8cache).all (fun e =>
      !(e.query_hash == getCacheKey "安心无忧医疗险") &&
      !(ilikeContains e.query_text "安心无忧医疗险"))) = true ∧
    cacheLookup (getCacheKey "安心无忧医疗险") 5
      ({ db := { products := [⟨3, "安心无忧医疗险", false⟩], clauses := [] },
         cache := ([] : List CacheEntry) } : ToggleOut).cache = none :=
  c8_theorem c8db c8cache 3 false 5 ⟨3, "安心无忧医疗险", true⟩
    { db := { products := [⟨3, "安心无忧医疗险", false⟩], clauses := [] }, cache := [] }
    (by decide) rfl

/-! ## FAILED strategy and its propagation (C5) -/

/-- A vector-store error short-circuits to FAILED with empty rows. -/
theorem hybridRetrieve_vector_failed (query : String) (env : RetrievalEnv) (mc : Nat)
    (dbg : Bool) (hemb : env.embedFails = false) (hvec : env.vectorFails = true) :
    (hybridRetrieve query env mc dbg).1.strategy = RetrievalStrategy.FAILED ∧
    (hybridRetrieve query env mc dbg).1.rows = [] ∧
    (hybridRetrieve query env mc dbg).2 = [Ev.listActiveRpc, Ev.embedRpc, Ev.vectorRpc] := by
  simp only [hybridRetrieve, hemb, hvec]
  simp

/-- A registry ilike error on the fallback path (reached when phase3
keeps no rows) short-circuits to FAILED with empty rows. -/
theorem hybridRetrieve_prodLike_failed (query : String) (env : RetrievalEnv) (mc : Nat)
    (dbg : Bool) (ids : List Nat) (nm : Option String)
    (hemb : env.embedFails = false) (hvec : env.vectorFails = false)
    (hpr : priorityLoop (normalizeProductName query) [] none
        (if env.listActiveFails then []
         else (env.db.products.filter (fun p => p.is_active)).map
           (fun p => ⟨p.id, p.name⟩)) = (ids, nm))
    (hempty : (phase3 ids (env.vecHits (mc * 2)) mc).1.isEmpty = true)
    (hpl : env.prodLikeFails = true) :
    (hybridRetrieve query env mc dbg).1.strategy = RetrievalStrategy.FAILED ∧
    (hybridRetrieve query env mc dbg).1.rows = [] := by
  simp only [hybridRetrieve, hemb, hvec, hpr, hempty, hpl]
  simp

/-- A clause-fetch error on the fallback path (reached when phase3
keeps no rows and the ilike lookup matched) short-circuits to FAILED
with empty rows. -/
theorem hybridRetrieve_clauseFetch_failed (query : String) (env : RetrievalEnv) (mc : Nat)
    (dbg : Bool) (ids : List Nat) (nm : Option String)
    (hemb : env.embedFails = false) (hvec : env.vectorFails = false)
    (hpr : priorityLoop (normalizeProductName query) [] none
        (if env.listActiveFails then []
         else (env.db.products.filter (fun p => p.is_active)).map
           (fun p => ⟨p.id, p.name⟩)) = (ids, nm))
    (hempty : (phase3 ids (env.vecHits (mc * 2)) mc).1.isEmpty = true)
    (hpl : env.prodLikeFails = false)
    (hlike : ((likeProducts env.db query).map (fun p => p.id)).isEmpty = false)
    (hcf : env.clauseFetchFails = true) :
    (hybridRetrieve query env mc dbg).1.strategy = RetrievalStrategy.FAILED ∧
    (hybridRetrieve query env mc dbg).1.rows = [] := by
  simp only [hybridRetrieve, hemb, hvec, hpr, hempty, hpl, hlike, hcf]
  simp

/-- Claim C5, counterexample: the vector-store RPC errors, the engine
resolves to FAILED with empty evidence — but the route answers with
the ordinary notFound NO_SIMILAR_PRODUCT outcome at status 200, not
with a 500-class error outcome. -/
theorem c5_counterexample :
    (hybridRetrieve "平安福" c5retr 10 false).1.strategy = RetrievalStrategy.FAILED ∧
    (hybridRetrieve "平安福" c5retr 10 false).1.rows = [] ∧
    (searchPost c5env demoBody).1 = SearchOutcome.noSimilar "平安福" ∧
    statusOf (searchPost c5env demoBody).1 = 200 :=
  ⟨rfl, rfl, rfl, rfl⟩

/-- Claim C5, amended: an error of any upstream RPC the engine
actually issues during retrieval — the vector-store match, the
fallback registry ilike lookup, or the fallback clause fetch —
resolves the request to the FAILED strategy with an empty evidence
list; the route does not propagate FAILED as an error outcome: when
the cache step yields no hit it answers with the ordinary notFound
NO_SIMILAR_PRODUCT response at status 200, and when a valid cached
card exists for the matched name it returns that cached card, also at
status 200. -/
theorem c5_amended (env : SearchEnv) (body : ReqBody) (req : SearchReq)
    (ids : List Nat) (nm : Option String)
    (hreq : parseSearchRequest body = some req)
    (hgate : isGibberish req.query = none)
    (hpr : priorityLoop (normalizeProductName req.query) [] none
        (if env.retr.listActiveFails then []
         else (env.retr.db.products.filter (fun p => p.is_active)).map
           (fun p => ⟨p.id, p.name⟩)) = (ids, nm)) :
    (env.retr.embedFails = false → env.retr.vectorFails = true →
      (hybridRetrieve req.query env.retr req.matchCount req.debug).1.strategy =
        RetrievalStrategy.FAILED ∧
      (hybridRetrieve req.query env.retr req.matchCount req.debug).1.rows = []) ∧
    (env.retr.embedFails = false → env.retr.vectorFails = false →
      (phase3 ids (env.retr.vecHits (req.matchCount * 2)) req.matchCount).1.isEmpty = true →
      env.retr.prodLikeFails = true →
      (hybridRetrieve req.query env.retr req.matchCount req.debug).1.strategy =
        RetrievalStrategy.FAILED ∧
      (hybridRetrieve req.query env.retr req.matchCount req.debug).1.rows = []) ∧
    (env.retr.embedFails = false → env.retr.vectorFails = false →
      (phase3 ids (env.retr.vecHits (req.matchCount * 2)) req.matchCount).1.isEmpty = true →
      env.retr.prodLikeFails = false →
      ((likeProducts env.retr.db req.query).map (fun p => p.id)).isEmpty = false →
      env.retr.clauseFetchFails = true →
      (hybridRetrieve req.query env.retr req.matchCount req.debug).1.strategy =
        RetrievalStrategy.FAILED ∧
      (hybridRetrieve req.query env.retr req.matchCount req.debug).1.rows = []) ∧
    ((hybridRetrieve req.query env.retr req.matchCount req.debug).1.strategy =
        RetrievalStrategy.FAILED →
      (env.enableCache = false ∨
        cacheLookup (getCacheKey
          ((hybridRetrieve req.query env.retr req.matchCount
            req.debug).1.matchedProductName.getD ""))
          env.now env.cache = none) →
      (searchPost env body).1 = SearchOutcome.noSimilar req.query ∧
      statusOf (searchPost env body).1 = 200) ∧
    (∀ e : CacheEntry,
      isTruthyOptStr
        (hybridRetrieve req.query env.retr req.matchCount req.debug).1.matchedProductName =
        true →
      env.enableCache = true →
      cacheLookup (getCacheKey
        ((hybridRetrieve req.query env.retr req.matchCount
          req.debug).1.matchedProductName.getD ""))
        env.now env.cache = some e →
      (searchPost env body).1 =
        SearchOutcome.cacheHit (objSet e.result "_cached" (JsonVal.bool true)) ∧
      statusOf (searchPost env body).1 = 200) := by
  refine ⟨?_, ?_, ?_, ?_, ?_⟩
  · intro hemb hvec
    obtain ⟨h1, h2, _⟩ :=
      hybridRetrieve_vector_failed req.query env.retr req.matchCount req.debug hemb hvec
    exact ⟨h1, h2⟩
  · intro hemb hvec hempty hpl
    exact hybridRetrieve_prodLike_failed req.query env.retr req.matchCount req.debug
      ids nm hemb hvec hpr hempty hpl
  · intro hemb hvec hempty hpl hlike hcf
    exact hybridRetrieve_clauseFetch_failed req.query env.retr req.matchCount req.debug
      ids nm hemb hvec hpr hempty hpl hlike hcf
  · intro hfail hmiss
    have houtcome : (searchPost env body).1 = SearchOutcome.noSimilar req.query := by
      simp only [searchPost, hreq, hgate]
      by_cases hc : (isTruthyOptStr
          (hybridRetrieve req.query env.retr req.matchCount req.debug).1.matchedProductName &&
          env.enableCache) = true
      · have hlk : cacheLookup (getCacheKey
            ((hybridRetrieve req.query env.retr req.matchCount
              req.debug).1.matchedProductName.getD ""))
            env.now env.cache = none := by
          rcases hmiss with h | h
          · rw [Bool.and_eq_true, h] at hc
            exact absurd hc.2 (by decide)
          · exact h
        simp [hc, hlk, hfail]
      · simp [hc, hfail]
    exact ⟨houtcome, by rw [houtcome]; rfl⟩
  · intro e hname hcache hhit
    have houtcome : (searchPost env body).1 =
        SearchOutcome.cacheHit (objSet e.result "_cached" (JsonVal.bool true)) := by
      simp only [searchPost, hreq, hgate, hname, hcache, hhit]
      simp
    exact ⟨houtcome, by rw [houtcome]; rfl⟩

/-- Witness for c5_amended: the vector-store failure (FAILED plus
notFound at 200), the registry ilike failure, the clause-fetch
failure, and the cache-hit answer of a FAILED request. -/
theorem c5_witness :
    ((hybridRetrieve "平安福" c5env.retr 10 false).1.strategy = RetrievalStrategy.FAILED ∧
      (hybridRetrieve "平安福" c5env.retr 10 false).1.rows = []) ∧
    ((searchPost c5env demoBody).1 = SearchOutcome.noSimilar "平安福" ∧
      statusOf (searchPost c5env demoBody).1 = 200) ∧
    ((hybridRetrieve "平安福" c5envB.retr 10 false).1.strategy = RetrievalStrategy.FAILED ∧
      (hybridRetrieve "平安福" c5envB.retr 10 false).1.rows = []) ∧
    ((hybridRetrieve "平安福" c5envC.retr 10 false).1.strategy = RetrievalStrategy.FAILED ∧
      (hybridRetrieve "平安福" c5envC.retr 10 false).1.rows = []) ∧
    ((searchPost c5envD demoBody).1 =
      SearchOutcome.cacheHit (objSet demoCacheEntry.result "_cached" (JsonVal.bool true)) ∧
      statusOf (searchPost c5envD demoBody).1 = 200) := by
  have HA := c5_amended c5env demoBody
    { query := "平安福", matchCount := 10, matchThreshold := mkRat 1 10, debug := false }
    [1] (some "平安福") (by decide) (by decide) (by decide)
  have HB := c5_amended c5envB demoBody
    { query := "平安福", matchCount := 10, matchThreshold := mkRat 1 10, debug := false }
    [1] (some "平安福") (by decide) (by decide) (by decide)
  have HC := c5_amended c5envC demoBody
    { query := "平安福", matchCount := 10, matchThreshold := mkRat 1 10, debug := false }
    [1] (some "平安福") (by decide) (by decide) (by decide)
  have HD := c5_amended c5envD demoBody
    { query := "平安福", matchCount := 10, matchThreshold := mkRat 1 10, debug := false }
    [1] (some "平安福") (by decide) (by decide) (by decide)
  exact ⟨HA.1 rfl rfl,
    HA.2.2.2.1 (HA.1 rfl rfl).1 (Or.inl rfl),
    HB.2.1 rfl rfl (by decide) rfl,
    HC.2.2.1 rfl rfl (by decide) rfl (by decide) rfl,
    HD.2.2.2.2 demoCacheEntry (by decide) rfl rfl⟩

/-! ## Cache lookup ordering (C3) -/

/-- The engine itself never issues generation, product-name or
cache-write RPCs. -/
theorem hybrid_event_absent (query : String) (env : RetrievalEnv) (mc : Nat) (dbg : Bool) :
    Ev.generateRpc ∉ (hybridRetrieve query env mc dbg).2 ∧
    Ev.productNamesRpc ∉ (hybridRetrieve query env mc dbg).2 ∧
    Ev.cacheWriteRpc ∉ (hybridRetrieve query env mc dbg).2 := by
  simp only [hybridRetrieve]
  split_ifs <;> simp

/-- Claim C3, counterexample: on a cache hit the trace is the
retrieval RPCs — registry list, embedding, vector match — followed by
the cache read: the cache lookup runs after the Retrieval Policy
Engine, and the embedding and vector-store RPCs have already executed
when the hit returns. -/
theorem c3_counterexample :
    (searchPost c3env demoBody).1 =
      SearchOutcome.cacheHit (objSet cachedCard "_cached" (JsonVal.bool true)) ∧
    (searchPost c3env demoBody).2 =
      [Ev.listActiveRpc, Ev.embedRpc, Ev.vectorRpc, Ev.cacheReadRpc, Ev.cacheUpdateRpc] :=
  ⟨rfl, rfl⟩

/-- Claim C3, amended: the cache lookup keyed by the matched product
name happens after hybridRetrieve; on a hit the request returns
immediately afterwards — no generation, no product-name fetch, no
cache write — but the retrieval RPCs (product-name matching,
embedding, vector store) have already been issued. -/
theorem c3_amended (env : SearchEnv) (body : ReqBody) (req : SearchReq) (e : CacheEntry)
    (hreq : parseSearchRequest body = some req)
    (hgate : isGibberish req.query = none)
    (hname : isTruthyOptStr
      (hybridRetrieve req.query env.retr req.matchCount req.debug).1.matchedProductName = true)
    (hcache : env.enableCache = true)
    (hhit : cacheLookup (getCacheKey
        ((hybridRetrieve req.query env.retr req.matchCount req.debug).1.matchedProductName.getD ""))
        env.now env.cache = some e) :
    searchPost env body =
      (SearchOutcome.cacheHit (objSet e.result "_cached" (JsonVal.bool true)),
        (hybridRetrieve req.query env.retr req.matchCount req.debug).2 ++
          [Ev.cacheReadRpc, Ev.cacheUpdateRpc]) ∧
    Ev.generateRpc ∉ (searchPost env body).2 ∧
    Ev.productNamesRpc ∉ (searchPost env body).2 ∧
    Ev.cacheWriteRpc ∉ (searchPost env body).2 := by
  have hpost : searchPost env body =
      (SearchOutcome.cacheHit (objSet e.result "_cached" (JsonVal.bool true)),
        (hybridRetrieve req.query env.retr req.matchCount req.debug).2 ++
          [Ev.cacheReadRpc, Ev.cacheUpdateRpc]) := by
    simp only [searchPost, hreq, hgate, hname, hcache, hhit]
    simp
  obtain ⟨hg, hp2, hw⟩ :=
    hybrid_event_absent req.query env.retr req.matchCount req.debug
  refine ⟨hpost, ?_, ?_, ?_⟩
  · rw [hpost]; simp [List.mem_append, hg]
  · rw [hpost]; simp [List.mem_append, hp2]
  · rw [hpost]; simp [List.mem_append, hw]

/-- Witness for c3_amended at the concrete cache-hit environment. -/
theorem c3_witness :
    isTruthyOptStr (hybridRetrieve "平安福" c3env.retr 10 false).1.matchedProductName = true ∧
    cacheLookup (getCacheKey
        ((hybridRetrieve "平安福" c3env.retr 10 false).1.matchedProductName.getD ""))
      c3env.now c3env.cache = some demoCacheEntry ∧
    (searchPost c3env demoBody =
      (SearchOutcome.cacheHit (objSet demoCacheEntry.result "_cached" (JsonVal.bool true)),
        (hybridRetrieve "平安福" c3env.retr 10 false).2 ++
          [Ev.cacheReadRpc, Ev.cacheUpdateRpc]) ∧
      Ev.generateRpc ∉ (searchPost c3env demoBody).2 ∧
      Ev.productNamesRpc ∉ (searchPost c3env demoBody).2 ∧
      Ev.cacheWriteRpc ∉ (searchPost c3env demoBody).2) :=
  ⟨by decide, rfl,
    c3_amended c3env demoBody
      { query := "平安福", matchCount := 10, matchThreshold := mkRat 1 10, debug := false }
      demoCacheEntry (by decide) (by decide) (by decide) rfl rfl⟩

/-! ## Citation contract (C1, C9) -/

/-- The upsert of the clause map, observed through any key
predicate. -/
theorem upsert_any (m : List (Nat × ClauseMapItem)) (k : Nat) (v : ClauseMapItem)
    (p : Nat → Bool) :
    ((upsertClauseMap m k v).any (fun kv => p kv.1)) =
      (m.any (fun kv => p kv.1) || p k) := by
  have heq : ∀ (l : List (Nat × ClauseMapItem)),
      ((l.map (fun kv => if kv.1 == k then (k, v) else kv)).any (fun kv => p kv.1)) =
        l.any (fun kv => p kv.1) := by
    intro l
    induction l with
    | nil => rfl
    | cons a t iht =>
      simp only [List.map_cons, List.any_cons, iht]
      by_cases hk : (a.1 == k) = true
      · rw [if_pos hk]
        rw [beq_iff_eq] at hk
        rw [hk]
      · rw [if_neg hk]
  rw [upsertClauseMap]
  split_ifs with h
  · rw [heq]
    have h' : ∃ x ∈ m, (x.1 == k) = true := by simpa using h
    cases hpk : p k
    · simp
    · rw [Bool.or_true]
      obtain ⟨kv, hkv, hk⟩ := h'
      rw [beq_iff_eq] at hk
      rw [List.any_eq_true]
      exact ⟨kv, hkv, by rw [hk, hpk]⟩
  · rw [List.any_append]
    simp

theorem keyResolves_upsert (m : List (Nat × ClauseMapItem)) (k : Nat) (v : ClauseMapItem)
    (n : Int) :
    keyResolves (upsertClauseMap m k v) n = (keyResolves m n || ((k : Int) == n)) :=
  upsert_any m k v (fun k0 => ((k0 : Int) == n))

/-- The buildContext loop keeps every already-resolving source
resolving and adds each new source together with its clause-map
binding. -/
theorem buildLoop_resolve (names : List (Nat × String)) (rows : List ClauseRow) :
    ∀ (parts : List String) (sources : List SourceInfoOut)
      (m : List (Nat × ClauseMapItem)),
      sourcesResolve sources m = true →
      sourcesResolve (buildLoop names parts sources m rows).2.1
        (buildLoop names parts sources m rows).2.2 = true := by
  induction rows with
  | nil => intro parts sources m h; simpa [buildLoop] using h
  | cons r rest ih =>
    intro parts sources m h
    simp only [buildLoop]
    by_cases hc : (jsTrim (r.content.getD "") == "") = true
    · rw [if_pos hc]
      exact ih parts sources m h
    · rw [if_neg hc]
      apply ih
      rw [sourcesResolve, List.all_eq_true]
      intro s hs
      rcases List.mem_append.mp hs with hs | hs
      · rw [sourcesResolve, List.all_eq_true] at h
        rw [keyResolves_upsert, h s hs, Bool.true_or]
      · rw [List.mem_singleton] at hs
        subst hs
        rw [keyResolves_upsert]
        simp

/-- Claim C1, counterexample: in the concrete run the generation
oracle cites clause 999, which is not among the retrieved clause ids;
the Schema Validator accepts the card and the endpoint returns it as a
success, so a success card can carry a non-null sourceClauseId that is
not a key of its own clauseMap. -/
theorem c1_counterexample :
    successHasDanglingCitation (searchPost c1env demoBody).1 = true := by decide

/-- Claim C1, amended: the Schema Validator enforces only the
structural contract and does not check generated sourceClauseIds
against the clauseMap; what the code does guarantee is the Context
Assembler invariant that every entry of the sources list attached to
the card resolves to a key of the clauseMap built from the same
rows. -/
theorem c1_amended (rows : List ClauseRow) (names : List (Nat × String)) :
    sourcesResolve (buildContext rows names).sources (buildContext rows names).clauseMap = true := by
  simp only [buildContext]
  exact buildLoop_resolve names rows [] [] [] rfl

/-- Claim C9, counterexample: the generation oracle answers with the
fallback marker as targetAudience value together with sourceClauseId
7; the Schema Validator accepts it and the endpoint returns it as a
success, so acceptance does not imply that a marker-valued field has a
null citation. -/
theorem c9_counterexample :
    successHasMarkerWithCitation (searchPost c9env demoBody).1 = true := by decide

/-- Claim C9, amended: the marker-implies-null rule is stated only in
the generation instruction; the Schema Validator accepts a CitedField
whose value is the reserved fallback marker together with any non-null
sourceClauseId, a combination that violates the rule. -/
theorem c9_amended (n : Int) :
    parseSourcedField (JsonVal.obj [("value", JsonVal.str fallbackMarker),
      ("sourceClauseId", JsonVal.num n)]) =
      some { value := fallbackMarker, sourceClauseId := some n } ∧
    fieldFallbackOk fallbackMarker (some n) = false :=
  ⟨rfl, rfl⟩

/-- Witness for c4_amended at the pure-digit query of the claim. -/
theorem c4_witness :
    parseSearchRequest ⟨some "12345", none, none, none⟩ =
      some { query := "12345", matchCount := 10, matchThreshold := mkRat 1 10, debug := false } ∧
    isGibberish "12345" = some "请输入产品名称而非纯数字" ∧
    (searchPost c1env ⟨some "12345", none, none, none⟩ =
      (SearchOutcome.invalidInput "12345" "请输入产品名称而非纯数字", []) ∧
      "请输入产品名称而非纯数字" ≠ "") :=
  ⟨by decide, by decide, c4_amended.2 c1env ⟨some "12345", none, none, none⟩
    { query := "12345", matchCount := 10, matchThreshold := mkRat 1 10, debug := false }
    "请输入产品名称而非纯数字" (by decide) (by decide)⟩

end InsuranceRag
